import Mathlib

/-!
Verification of the lat-lon graticule core of CelestialMappingSystem/WebWorldWind.

Shallow embedding of the JavaScript sources
  src/layer/graticule/GraticuleGridTile.js
  src/layer/graticule/LatLonGraticuleGridTile.js
  src/layer/graticule/LatLonGraticuleLayer.js
  src/layer/graticule/GraticuleLayer.js
  src/layer/graticule/GridElement.js

Modelling conventions, used throughout:

* JavaScript numbers are modelled as rationals.  Every comparison performed by
  the embedded code is an order comparison or an equality test on values that
  are decimal literals or sums/products/quotients of such, so the rational
  model mirrors the double-precision semantics at every point a claim depends
  on.  Note that in Lean, division of rationals by zero yields zero (JS yields
  Infinity); none of the theorems below depend on a division by zero.

* External collaborators (the rendering backend of spec section 6) enter the
  model as oracle fields of the draw-context structure: the frustum
  intersection test (BoundingBox.intersectsFrustum applied to the box built
  from a sector), the eye-to-surface-point distance, and the pixel size at a
  distance.  These are exactly the interfaces the spec lists as consumed
  (view.frustumIntersects, view.projectToScreenDistance,
  view.pixelSizeAtDistance); the logic under verification only composes and
  compares their results.

* The geometry module geom/Sector is outside the given sources; its overlap
  and centroid queries are modelled from the spec (section 3: a min/max
  latitude/longitude rectangle with overlap and centroid queries).

* Lazy mutable caches (gridElements, subTiles) become Option fields, and the
  selection pass is written as explicit state passing: it returns the selected
  triple together with the updated tile.  Possible non-termination of the
  recursion (the code has no structural bound once subdivision misbehaves) is
  modelled by a fuel parameter; running out of fuel, like reaching the one
  line that would throw in JS (the call of the missing method isText), yields
  none.
-/

namespace Graticule

/-- A min/max latitude/longitude rectangle (geom/Sector). -/
structure Sector where
  minLatitude : ℚ
  maxLatitude : ℚ
  minLongitude : ℚ
  maxLongitude : ℚ
deriving DecidableEq, Repr

namespace Sector

/-- Sector.deltaLatitude from geom/Sector: the latitude extent. -/
def deltaLatitude (s : Sector) : ℚ := s.maxLatitude - s.minLatitude

/-- Sector.deltaLongitude from geom/Sector: the longitude extent. -/
def deltaLongitude (s : Sector) : ℚ := s.maxLongitude - s.minLongitude

/-- Modelled from the spec: geom/Sector (outside the given sources) provides an
overlap query on min/max lat-lon rectangles; two rectangles overlap when their
closed intervals intersect on both axes. -/
def overlaps (s vs : Sector) : Bool :=
  decide (s.minLongitude ≤ vs.maxLongitude) && decide (vs.minLongitude ≤ s.maxLongitude) &&
  decide (s.minLatitude ≤ vs.maxLatitude) && decide (vs.minLatitude ≤ s.maxLatitude)

/-- Modelled from the spec: geom/Sector (outside the given sources) provides a
centroid query; the centroid is the midpoint on both axes. -/
def centroid (s : Sector) : ℚ × ℚ :=
  ((s.minLatitude + s.maxLatitude) / 2, (s.minLongitude + s.maxLongitude) / 2)

end Sector

/-- The element-type tags of GridElement (GridElement.typeLine and friends). -/
inductive GEType where
  | line
  | lineNorth
  | lineSouth
  | lineWest
  | lineEast
  | lineNorthing
  | lineEasting
  | gridZoneLabel
  | longitudeLabel
  | latitudeLabel
deriving DecidableEq, Repr

/-- A path renderable as built by GraticuleGridTile.createLineRenderable: a
shapes/Path with its positions (latitude, longitude, altitude) and the flags
the code sets on it. -/
structure Path where
  positions : List (ℚ × ℚ × ℚ)
  altitudeMode : String
  followTerrain : Bool
  pathType : String
deriving DecidableEq, Repr

/-- A geographic position (latitude, longitude, altitude), used for the eye
position that computeLabelOffset returns. -/
structure EyePos where
  latitude : ℚ
  longitude : ℚ
  altitude : ℚ
deriving DecidableEq, Repr

/-- The draw context as consumed by the graticule core.  The first field is
dc.globe.projectionLimits (the visible-region rectangle GridElement.isInView
and LatLonGraticuleLayer.getVisibleTiles read); the remaining fields are the
external view oracles of spec section 6.  The repository's render/DrawContext
defines no projectionLimits property of its own, so the read of
dc.projectionLimits inside GraticuleGridTile.isInView yields undefined and the
guarded branch (whose body also references an undeclared variable vs) is
unreachable; the model therefore carries only the globe's limits. -/
structure DrawContext where
  globeProjectionLimits : Option Sector
  eyePosition : EyePos
  frustumIntersectsSector : Sector → Bool
  eyeDistanceToSurfacePoint : ℚ → ℚ → ℚ
  pixelSizeAtDistance : ℚ → ℚ

/-- A grid element (GridElement.js): a sector, a renderable, a type tag and the
coordinate value the element marks (assigned after construction in the JS). -/
structure GridElement where
  sector : Sector
  renderable : Path
  type : GEType
  value : ℚ
deriving DecidableEq, Repr

namespace GridElement

/-- GridElement.prototype.isInView: the visible sector is the explicit argument
if one is passed (a Sector object is always truthy), else
dc.globe.projectionLimits; with no sector at all the element counts as not in
view, otherwise the element's sector is tested for overlap. -/
def isInView (ge : GridElement) (dc : DrawContext) (vsArg : Option Sector) : Bool :=
  match vsArg.orElse (fun _ => dc.globeProjectionLimits) with
  | none => false
  | some vs => ge.sector.overlaps vs

/-- GridElement.prototype.isLabel. -/
def isLabel (ge : GridElement) : Bool :=
  match ge.type with
  | GEType.gridZoneLabel => true
  | GEType.longitudeLabel => true
  | GEType.latitudeLabel => true
  | _ => false

/-- GridElement.prototype.isLine. -/
def isLine (ge : GridElement) : Bool :=
  match ge.type with
  | GEType.line => true
  | GEType.lineNorth => true
  | GEType.lineSouth => true
  | GEType.lineWest => true
  | GEType.lineEast => true
  | GEType.lineNorthing => true
  | GEType.lineEasting => true
  | _ => false

end GridElement

/-- A graticule grid tile (GraticuleGridTile.js): a sector, the subdivision
count, the depth level, and the two lazily populated caches. -/
inductive GridTile where
  | mk (sector : Sector) (divisions : ℕ) (level : ℕ)
      (gridElements : Option (List GridElement))
      (subTiles : Option (List GridTile)) : GridTile

namespace GridTile

def sector : GridTile → Sector
  | .mk s _ _ _ _ => s

def divisions : GridTile → ℕ
  | .mk _ d _ _ _ => d

def level : GridTile → ℕ
  | .mk _ _ l _ _ => l

def gridElements : GridTile → Option (List GridElement)
  | .mk _ _ _ g _ => g

def subTiles : GridTile → Option (List GridTile)
  | .mk _ _ _ _ t => t

end GridTile

instance : Inhabited GridTile :=
  ⟨GridTile.mk ⟨0, 0, 0, 0⟩ 0 0 none none⟩

namespace GraticuleGridTile

/-- Angle.DEGREES_TO_RADIANS from geom/Angle (outside the given sources): the
double Math.PI, whose exact value is 884279719003555 / 2^48, divided by 180.
Only the positivity and scale of this constant reach any comparison below. -/
def degreesToRadians : ℚ := 884279719003555 / 281474976710656 / 180

/-- GraticuleGridTile.prototype.getSizeInPixels: project the sector centroid to
a surface point, take the distance from the eye, convert the tile's latitude
extent to radians and divide by the pixel size at that distance. -/
def getSizeInPixels (t : GridTile) (dc : DrawContext) : ℚ :=
  let c := t.sector.centroid
  let distance := dc.eyeDistanceToSurfacePoint c.1 c.2
  let tileSizeMeter := t.sector.deltaLatitude * degreesToRadians
  tileSizeMeter / dc.pixelSizeAtDistance distance

/-- GraticuleGridTile.prototype.isInView: the frustum test on the bounding box
built from the sector (an external view oracle here).  The projection-limits
branch of the source is unreachable: its guard reads dc.projectionLimits, a
property the repository's DrawContext does not define, so the guard is always
falsy (and the branch body references an undeclared variable vs). -/
def isInView (t : GridTile) (dc : DrawContext) : Bool :=
  if ! dc.frustumIntersectsSector t.sector then false
  else true

/-- GraticuleGridTile.prototype.clearRenderables: drop the elements and
(recursively cleared, then dropped wholesale) subtiles. -/
def clearRenderables : GridTile → GridTile
  | .mk s d l _ _ => .mk s d l none none

/-- The WorldWind.LINEAR path type constant. -/
def linear : String := "WorldWind.LINEAR"

/-- GraticuleGridTile.prototype.createLineRenderable. -/
def createLineRenderable (positions : List (ℚ × ℚ × ℚ)) (pathType : String) : Path :=
  { positions := positions
    altitudeMode := "WorldWind.CLAMP_TO_GROUND"
    followTerrain := true
    pathType := pathType }

/-- One JS while-loop that visits cur, cur+step, ... while the value stays
strictly below the bound.  Fuel caps the iteration count; every run examined
below terminates well within its fuel. -/
def walkWhileLt : ℕ → ℚ → ℚ → ℚ → List ℚ
  | 0, _, _, _ => []
  | fuel + 1, cur, bound, step =>
    if cur < bound then cur :: walkWhileLt fuel (cur + step) bound step else []

/-- GraticuleGridTile.prototype.createRenderables: walk the region in
step = deltaLatitude / divisions increments, emitting one meridian element per
visited longitude (the western boundary, visited only at level 0, is tagged
LineWest) and one parallel element per visited latitude (the southern
boundary, visited only at level 0, is tagged LineSouth), plus a LineNorth
parallel when the sector reaches latitude 90. -/
def createRenderables (fuel : ℕ) (t : GridTile) : List GridElement :=
  let step := t.sector.deltaLatitude / t.divisions
  let lonStart := t.sector.minLongitude + (if t.level = 0 then 0 else step)
  let lons := walkWhileLt fuel lonStart (t.sector.maxLongitude - step / 2) step
  let meridians := lons.map (fun longitude =>
    { sector := ⟨t.sector.minLatitude, t.sector.maxLatitude, longitude, longitude⟩
      renderable := createLineRenderable
        [(t.sector.minLatitude, longitude, 0), (t.sector.maxLatitude, longitude, 0)] linear
      type := if longitude = t.sector.minLongitude then GEType.lineWest else GEType.line
      value := longitude })
  let latStart := t.sector.minLatitude + (if t.level = 0 then 0 else step)
  let lats := walkWhileLt fuel latStart (t.sector.maxLatitude - step / 2) step
  let parallels := lats.map (fun latitude =>
    { sector := ⟨latitude, latitude, t.sector.minLongitude, t.sector.maxLongitude⟩
      renderable := createLineRenderable
        [(latitude, t.sector.minLongitude, 0), (latitude, t.sector.maxLongitude, 0)] linear
      type := if latitude = t.sector.minLatitude then GEType.lineSouth else GEType.line
      value := latitude })
  let northLine :=
    if t.sector.maxLatitude = 90 then
      [{ sector := ⟨90, 90, t.sector.minLongitude, t.sector.maxLongitude⟩
         renderable := createLineRenderable
           [(90, t.sector.minLongitude, 0), (90, t.sector.maxLongitude, 0)] linear
         type := GEType.lineNorth
         value := (90 : ℚ) }]
    else []
  meridians ++ parallels ++ northLine

/-- GraticuleGridTile.prototype.computeLabelOffset: the current eye position. -/
def computeLabelOffset (dc : DrawContext) : EyePos := dc.eyePosition

/-- GraticuleGridTile.prototype.subdivideSector, exactly as written in the
source: the row/column offsets use the full deltaLatitude and deltaLongitude
of the tile's own sector (the source never divides the step by divisions), so
cell (row, col) is the parent-sized rectangle shifted by row, col whole
extents. -/
def subdivideSector (t : GridTile) : List Sector :=
  let dLat := t.sector.deltaLatitude
  let dLon := t.sector.deltaLongitude
  let minLat := t.sector.minLatitude
  let minLon := t.sector.minLongitude
  (List.range t.divisions).flatMap (fun row =>
    (List.range t.divisions).map (fun col =>
      ⟨minLat + dLat * row, minLat + dLat * row + dLat,
       minLon + dLon * col, minLon + dLon * col + dLon⟩))

end GraticuleGridTile

namespace LatLonGraticuleGridTile

/-- LatLonGraticuleGridTile.minCellSizePixels, a static on the constructor. -/
def minCellSizePixels : ℚ := 40

def graticuleLatLonLevel0 : String := "Graticule.LatLonLevel0"

def graticuleLatLonLevel1 : String := "Graticule.LatLonLevel1"

def graticuleLatLonLevel2 : String := "Graticule.LatLonLevel2"

def graticuleLatLonLevel3 : String := "Graticule.LatLonLevel3"

def graticuleLatLonLevel4 : String := "Graticule.LatLonLevel4"

def graticuleLatLonLevel5 : String := "Graticule.LatLonLevel5"

/-- LatLonGraticuleGridTile.prototype.getLevel: the banded resolution-to-level
table.  The source has no final else branch, so a resolution below 0.0001
returns undefined, modelled as none. -/
def getLevel (resolution : ℚ) : Option String :=
  if resolution ≥ 10 then some graticuleLatLonLevel0
  else if resolution ≥ 1 then some graticuleLatLonLevel1
  else if resolution ≥ 1/10 then some graticuleLatLonLevel2
  else if resolution ≥ 1/100 then some graticuleLatLonLevel3
  else if resolution ≥ 1/1000 then some graticuleLatLonLevel4
  else if resolution ≥ 1/10000 then some graticuleLatLonLevel5
  else none

/-- LatLonGraticuleGridTile.prototype.isInView: the base frustum test, and
beyond level 0 additionally the requirement that a child cell still spans at
least minCellSizePixels on screen. -/
def isInView (t : GridTile) (dc : DrawContext) : Bool :=
  if ! GraticuleGridTile.isInView t dc then false
  else if t.level ≠ 0 &&
      GraticuleGridTile.getSizeInPixels t dc / t.divisions < minCellSizePixels then false
  else true

/-- LatLonGraticuleGridTile.prototype.createSubTiles: one child per sub-sector
of subdivideSector, at level + 1, with 6 divisions when the parent's level is
0 or 2 and 10 otherwise. -/
def createSubTiles (t : GridTile) : List GridTile :=
  let sectors := GraticuleGridTile.subdivideSector t
  let subdivisions := if t.level = 0 ∨ t.level = 2 then 6 else 10
  sectors.map (fun s => GridTile.mk s subdivisions (t.level + 1) none none)

end LatLonGraticuleGridTile

namespace LatLonGraticuleLayer

/-- LatLonGraticuleLayer.prototype.getGridColumn. -/
def getGridColumn (lon : ℚ) : ℤ :=
  min ⌊(lon + 180) / 10⌋ 35

/-- LatLonGraticuleLayer.prototype.getGridRow. -/
def getGridRow (lat : ℚ) : ℤ :=
  min ⌊(lat + 90) / 10⌋ 17

/-- LatLonGraticuleLayer.prototype.getGridSector, exactly as written in the
source: the minimum longitude is computed as -180 * col * 10 (a product, where
the row branch uses the sum -90 + row * 10). -/
def getGridSector (row col : ℤ) : Sector :=
  let minLat : ℚ := -90 + (row : ℚ) * 10
  let maxLat : ℚ := minLat + 10
  let minLon : ℚ := -180 * (col : ℚ) * 10
  let maxLon : ℚ := minLon + 10
  ⟨minLat, maxLat, minLon, maxLon⟩

end LatLonGraticuleLayer

/-- One selected renderable paired with its graticule-level tag (possibly the
undefined tag when getLevel fell through its table). -/
abbrev Tagged := Path × Option String

/-- One queued label request: value, label type, graticule level, the tile's
delta latitude, and the label offset. -/
abbrev LabelRequest := ℚ × GEType × Option String × ℚ × EyePos

/-- The triple selectRenderables returns: selected path renderables, selected
text renderables and created label requests. -/
structure SelectResult where
  pathRenderables : List Tagged
  textRenderables : List Tagged
  createdLabels : List LabelRequest
deriving DecidableEq, Repr

namespace LatLonGraticuleGridTile

/-- The read of this.minCellSizePixels inside selectRenderables: the constant
is stored on the constructor function object, not on the prototype chain the
instance-property lookup walks, so the read yields undefined. -/
def instanceMinCellSizePixels : Option ℚ := none

/-- A JS less-than whose right operand may be undefined: comparison with
undefined coerces it to NaN and yields false. -/
def jsLtOpt (x : ℚ) : Option ℚ → Bool
  | some y => decide (x < y)
  | none => false

/-- The body of the level-0 boundary loop of selectRenderables: an element in
view whose type is LineSouth, LineNorth or LineWest is emitted as a path at
the level-0 tag together with a label request, LatitudeLabel for the north and
south lines and LongitudeLabel for the west line. -/
def boundarySelectOne (dc : DrawContext) (graticuleLevel : Option String) (dLat : ℚ)
    (labelOffset : EyePos) (ge : GridElement) : List Tagged × List LabelRequest :=
  if ge.isInView dc none = true ∧
      (ge.type = GEType.lineSouth ∨ ge.type = GEType.lineNorth ∨ ge.type = GEType.lineWest) then
    ([(ge.renderable, graticuleLevel)],
     [(ge.value,
       if ge.type = GEType.lineNorth ∨ ge.type = GEType.lineSouth
       then GEType.latitudeLabel else GEType.longitudeLabel,
       graticuleLevel, dLat, labelOffset)])
  else ([], [])

/-- The level-0 boundary loop of selectRenderables, in element order. -/
def boundaryLoop (dc : DrawContext) (graticuleLevel : Option String) (dLat : ℚ)
    (labelOffset : EyePos) : List GridElement → List Tagged × List LabelRequest
  | [] => ([], [])
  | ge :: rest =>
    let r := boundarySelectOne dc graticuleLevel dLat labelOffset ge
    let rs := boundaryLoop dc graticuleLevel dLat labelOffset rest
    (r.1 ++ rs.1, r.2 ++ rs.2)

/-- The guard of the grid-element loop of selectRenderables: the element is in
view and its type is the plain Line type. -/
def lineSelected (dc : DrawContext) (ge : GridElement) : Bool :=
  ge.isInView dc none && decide (ge.type = GEType.line)

/-- The label request the grid-element loop queues for a selected element: its
type is LatitudeLabel exactly when the element's sector has zero latitude
extent, else LongitudeLabel. -/
def lineLabelRequest (graticuleLevel : Option String) (dLat : ℚ) (labelOffset : EyePos)
    (ge : GridElement) : LabelRequest :=
  (ge.value,
   if ge.sector.deltaLatitude = 0 then GEType.latitudeLabel else GEType.longitudeLabel,
   graticuleLevel, dLat, labelOffset)

/-- The body of the grid-element loop of selectRenderables: an element in view
whose type is Line is pushed as a path when isLine answers true; otherwise the
source would call ge.isText, a method GridElement does not define, throwing in
JS (none here); the label request is then queued. -/
def tileSelectOne (dc : DrawContext) (graticuleLevel : Option String) (dLat : ℚ)
    (labelOffset : EyePos) (ge : GridElement) :
    Option (List Tagged × List Tagged × List LabelRequest) :=
  if ge.isInView dc none = true ∧ ge.type = GEType.line then
    if ge.isLine = true then
      some ([(ge.renderable, graticuleLevel)], [],
            [lineLabelRequest graticuleLevel dLat labelOffset ge])
    else none
  else some ([], [], [])

/-- The grid-element loop of selectRenderables, in element order. -/
def tileLoop (dc : DrawContext) (graticuleLevel : Option String) (dLat : ℚ)
    (labelOffset : EyePos) :
    List GridElement → Option (List Tagged × List Tagged × List LabelRequest)
  | [] => some ([], [], [])
  | ge :: rest => do
    let r ← tileSelectOne dc graticuleLevel dLat labelOffset ge
    let rs ← tileLoop dc graticuleLevel dLat labelOffset rest
    pure (r.1 ++ rs.1, r.2.1 ++ rs.2.1, r.2.2 ++ rs.2.2)

/-- LatLonGraticuleGridTile.prototype.selectRenderables, with explicit cache
state and fuel.  In source order: ensure gridElements; at level 0 emit the
boundary lines and labels and take the early return when the child-cell pixel
size is below this.minCellSizePixels (a comparison against undefined, hence
never taken); emit the in-view Line elements at the resolution-derived level
tag; return unless the child-cell pixel size reaches twice minCellSizePixels;
otherwise ensure subTiles and for each subtile in order either recurse (when
it is in view, discarding the returned triple, keeping only the subtile's
mutated state) or clear it, and return the tile's own triple. -/
def selectRenderables : ℕ → DrawContext → GridTile → Option (SelectResult × GridTile)
  | 0, _, _ => none
  | fuel + 1, dc, t =>
    let elements := t.gridElements.getD (GraticuleGridTile.createRenderables (fuel + 1) t)
    let labelOffset := GraticuleGridTile.computeLabelOffset dc
    let boundary :=
      if t.level = 0 then
        boundaryLoop dc (getLevel t.sector.deltaLatitude) t.sector.deltaLatitude
          labelOffset elements
      else ([], [])
    if t.level = 0 ∧
        jsLtOpt (GraticuleGridTile.getSizeInPixels t dc / t.divisions)
          instanceMinCellSizePixels = true then
      some (⟨boundary.1, [], boundary.2⟩,
        GridTile.mk t.sector t.divisions t.level (some elements) t.subTiles)
    else
      match tileLoop dc (getLevel (t.sector.deltaLatitude / t.divisions))
          t.sector.deltaLatitude labelOffset elements with
      | none => none
      | some interior =>
        let paths := boundary.1 ++ interior.1
        let texts := interior.2.1
        let labels := boundary.2 ++ interior.2.2
        if GraticuleGridTile.getSizeInPixels t dc / t.divisions < minCellSizePixels * 2 then
          some (⟨paths, texts, labels⟩,
            GridTile.mk t.sector t.divisions t.level (some elements) t.subTiles)
        else
          match (t.subTiles.getD (createSubTiles t)).foldl
              (fun acc c =>
                acc.bind (fun cs =>
                  if isInView c dc = true then
                    (selectRenderables fuel dc c).map (fun rc => cs ++ [rc.2])
                  else
                    some (cs ++ [GraticuleGridTile.clearRenderables c])))
              (some []) with
          | none => none
          | some children =>
            some (⟨paths, texts, labels⟩,
              GridTile.mk t.sector t.divisions t.level (some elements) (some children))

end LatLonGraticuleGridTile

namespace GraticuleLayer

/-- An emitted coordinate label (a GeographicText): the angle formatting lives
in external collaborators (geom/Angle, shapes/GeographicText), so the model
records the data that determines the text, the coordinate value together with
the label type it was requested under and the Vec3 anchor addLabel builds. -/
structure EmittedText where
  value : ℚ
  labelType : GEType
  anchor : ℚ × ℚ × ℚ
deriving DecidableEq, Repr

/-- The per-frame label bookkeeping of GraticuleLayer: the latitude and
longitude values claimed so far, and the text renderables handed to the
graticule support, each with its params key. -/
structure LabelState where
  latitudeLabels : List ℚ
  longitudeLabels : List ℚ
  textRenderables : List (EmittedText × Option String)
deriving DecidableEq, Repr

/-- The label state right after GraticuleLayer.prototype.clear: both value
lists reset, all renderables removed. -/
def cleared : LabelState := ⟨[], [], []⟩

/-- GraticuleLayer.prototype.addLabel, exactly as written in the source: the
latitude branch guards on the value being new to latitudeLabels; the
longitude branch also reads this.latitudeLabels in its guard (not
this.longitudeLabels) while pushing onto longitudeLabels.  The resolution
argument only feeds the external angle formatting. -/
def addLabel (st : LabelState) (value : ℚ) (labelType : GEType)
    (graticuleLevel : Option String) (resolution : ℚ) (labelOffset : EyePos) : LabelState :=
  if labelType = GEType.latitudeLabel ∧ value ∉ st.latitudeLabels then
    { latitudeLabels := st.latitudeLabels ++ [value]
      longitudeLabels := st.longitudeLabels
      textRenderables := st.textRenderables ++
        [(⟨value, labelType, (value, labelOffset.longitude, 0)⟩, graticuleLevel)] }
  else if labelType = GEType.longitudeLabel ∧ value ∉ st.latitudeLabels then
    { latitudeLabels := st.latitudeLabels
      longitudeLabels := st.longitudeLabels ++ [value]
      textRenderables := st.textRenderables ++
        [(⟨value, labelType, (labelOffset.latitude, value, 0)⟩, graticuleLevel)] }
  else st

/-- The label-request loop of GraticuleLayer.prototype.selectRenderables:
forward each created-labels entry to addLabel in order. -/
def processLabelRequests (st : LabelState) : List LabelRequest → LabelState
  | [] => st
  | r :: rest => processLabelRequests (addLabel st r.1 r.2.1 r.2.2.1 r.2.2.2.1 r.2.2.2.2) rest

end GraticuleLayer

/-! ## Concrete scenario data -/

/-- A concrete level-0 tile over the sector 0..10 by 0..10 with 2 divisions,
used to exercise subdivideSector. -/
def c1tile : GridTile := GridTile.mk ⟨0, 10, 0, 10⟩ 2 0 none none

/-- A trivial draw context with no projection limits and constant oracles. -/
def dcNoLimits : DrawContext :=
  { globeProjectionLimits := none
    eyePosition := ⟨0, 0, 0⟩
    frustumIntersectsSector := fun _ => false
    eyeDistanceToSurfacePoint := fun _ _ => 1
    pixelSizeAtDistance := fun _ => 1 }

/-- A concrete grid element: the meridian of longitude 5 across 0..10. -/
def c10element : GridElement :=
  { sector := ⟨0, 10, 5, 5⟩
    renderable := GraticuleGridTile.createLineRenderable
      [(0, 5, 0), (10, 5, 0)] GraticuleGridTile.linear
    type := GEType.line
    value := 5 }

/-- A concrete level-1 tile whose element list is empty, for the C9 witness. -/
def c9tile : GridTile := GridTile.mk ⟨0, 1, 0, 1⟩ 1 1 none none

/-- A concrete level-1 tile over 0..10 latitude by 20..30 longitude with 2
divisions, whose elements are one meridian and one parallel. -/
def c8tile : GridTile := GridTile.mk ⟨0, 10, 20, 30⟩ 2 1 none none

/-- A draw context whose projection limits cover the globe and whose size
oracles give c8tile a 20-pixel screen size (10 pixels per child cell). -/
def c8dc : DrawContext :=
  { globeProjectionLimits := some ⟨-90, 90, -180, 180⟩
    eyePosition := ⟨30, 40, 0⟩
    frustumIntersectsSector := fun _ => false
    eyeDistanceToSurfacePoint := fun _ _ => 1
    pixelSizeAtDistance := fun _ => GraticuleGridTile.degreesToRadians / 2 }

/-- The single interior meridian of c8tile: longitude 25, latitude extent 10. -/
def c8meridian : GridElement :=
  { sector := ⟨0, 10, 25, 25⟩
    renderable := GraticuleGridTile.createLineRenderable [(0, 25, 0), (10, 25, 0)]
      GraticuleGridTile.linear
    type := GEType.line
    value := 25 }

/-- The single interior parallel of c8tile: latitude 5, latitude extent 0. -/
def c8parallel : GridElement :=
  { sector := ⟨5, 5, 20, 30⟩
    renderable := GraticuleGridTile.createLineRenderable [(5, 20, 0), (5, 30, 0)]
      GraticuleGridTile.linear
    type := GEType.line
    value := 5 }

/-- A label offset used by the C3 requests. -/
def c3offset : EyePos := ⟨30, 40, 0⟩

/-- A longitude-label request for the coordinate value 5. -/
def c3lonRequest : LabelRequest :=
  (5, GEType.longitudeLabel, some LatLonGraticuleGridTile.graticuleLatLonLevel1, 10, c3offset)

/-- A latitude-label request for the coordinate value 5. -/
def c3latRequest : LabelRequest :=
  (5, GEType.latitudeLabel, some LatLonGraticuleGridTile.graticuleLatLonLevel1, 10, c3offset)

/-- A concrete level-0 tile over 0..10 by 0..10 with 2 divisions, for the
level-0 early-return scenario. -/
def c5tile : GridTile := GridTile.mk ⟨0, 10, 0, 10⟩ 2 0 none none

/-- A draw context whose size oracles give c5tile a 20-pixel screen size, so a
child cell projects to 10 pixels, below the 40-pixel minimum. -/
def c5dc : DrawContext :=
  { globeProjectionLimits := some ⟨-90, 90, -180, 180⟩
    eyePosition := ⟨1, 2, 3⟩
    frustumIntersectsSector := fun _ => false
    eyeDistanceToSurfacePoint := fun _ _ => 1
    pixelSizeAtDistance := fun _ => GraticuleGridTile.degreesToRadians / 2 }

/-- A concrete level-0 tile over latitudes 0..10 and longitudes 0..2 with 2
divisions, for the recursion scenario. -/
def c2parent : GridTile := GridTile.mk ⟨0, 10, 0, 2⟩ 2 0 none none

/-- The second subtile createSubTiles builds for c2parent: the parent-sized
cell shifted one longitude extent east, with 6 divisions at level 1. -/
def c2child : GridTile := GridTile.mk ⟨0, 10, 2, 4⟩ 6 1 none none

/-- A draw context under which c2parent spans 160 pixels (80 per child cell,
so the recursion branch is taken), only the c2child sector passes the frustum
test, and c2child spans 300 pixels (50 per child cell: visible, but too small
to recurse further).  The projection limits are the single point at latitude
5, longitude 3, which touches exactly one grid element in the whole scene:
the c2child parallel of latitude 5. -/
def c2dc : DrawContext :=
  { globeProjectionLimits := some ⟨5, 5, 3, 3⟩
    eyePosition := ⟨1, 2, 3⟩
    frustumIntersectsSector := fun s => decide (s = ⟨0, 10, 2, 4⟩)
    eyeDistanceToSurfacePoint := fun _ lon => lon
    pixelSizeAtDistance := fun d =>
      if d = 3 then GraticuleGridTile.degreesToRadians / 30
      else GraticuleGridTile.degreesToRadians / 16 }

/-- One parallel grid element of c2child at a given latitude. -/
def c2parallelAt (lat : ℚ) : GridElement :=
  { sector := ⟨lat, lat, 2, 4⟩
    renderable := GraticuleGridTile.createLineRenderable [(lat, 2, 0), (lat, 4, 0)]
      GraticuleGridTile.linear
    type := GEType.line
    value := lat }

/-- The five grid elements createRenderables builds for c2child (its meridian
walk is empty, since the first candidate longitude already passes the bound). -/
def c2childElements : List GridElement :=
  [c2parallelAt (5/3), c2parallelAt (10/3), c2parallelAt 5, c2parallelAt (20/3),
   c2parallelAt (25/3)]

/-! ## Theorems -/

/-- C1: subdivideSector of the 0..10 by 0..10 tile with 2 divisions produces
the four parent-sized cells 0..10/0..10, 0..10/10..20, 10..20/0..10 and
10..20/10..20; the last two lie strictly north of the parent region, so the
sub-sectors do not partition the tile's region. -/
theorem c1_subdivideSector_not_a_partition :
    GraticuleGridTile.subdivideSector c1tile =
      [⟨0, 10, 0, 10⟩, ⟨0, 10, 10, 20⟩, ⟨10, 20, 0, 10⟩, ⟨10, 20, 10, 20⟩] ∧
    ∃ s ∈ GraticuleGridTile.subdivideSector c1tile,
      c1tile.sector.maxLatitude ≤ s.minLatitude ∧ s.minLatitude ≠ s.maxLatitude := by
  have hr : List.range 2 = [0, 1] := by decide
  have h : GraticuleGridTile.subdivideSector c1tile =
      [⟨0, 10, 0, 10⟩, ⟨0, 10, 10, 20⟩, ⟨10, 20, 0, 10⟩, ⟨10, 20, 10, 20⟩] := by
    simp only [GraticuleGridTile.subdivideSector, c1tile, GridTile.sector, GridTile.divisions,
      Sector.deltaLatitude, Sector.deltaLongitude, hr, List.flatMap_cons, List.map_cons,
      List.map_nil, List.flatMap_nil, List.append_nil, List.cons_append, List.nil_append,
      List.cons.injEq, Sector.mk.injEq, and_true, true_and]
    norm_num
  refine ⟨h, ⟨10, 20, 0, 10⟩, ?_, by norm_num [c1tile, GridTile.sector], by norm_num⟩
  rw [h]
  simp

/-- C6: every child that createSubTiles constructs carries the parent's level
plus one, and 6 divisions when the parent's level is 0 or 2, else 10. -/
theorem c6_createSubTiles_level_and_divisions (t : GridTile) :
    ∀ c ∈ LatLonGraticuleGridTile.createSubTiles t,
      c.level = t.level + 1 ∧
      c.divisions = (if t.level = 0 ∨ t.level = 2 then 6 else 10) := by
  intro c hc
  unfold LatLonGraticuleGridTile.createSubTiles at hc
  simp only [List.mem_map] at hc
  obtain ⟨s, _, rfl⟩ := hc
  exact ⟨rfl, rfl⟩

/-- Witness for C6: the first child of the concrete 2-division level-0 tile
has level 1 and 6 divisions. -/
theorem c6_createSubTiles_witness :
    (GridTile.mk ⟨0, 10, 0, 10⟩ 6 1 none none) ∈ LatLonGraticuleGridTile.createSubTiles c1tile ∧
    (GridTile.mk ⟨0, 10, 0, 10⟩ 6 1 none none).level = c1tile.level + 1 ∧
    (GridTile.mk ⟨0, 10, 0, 10⟩ 6 1 none none).divisions = 6 := by
  have hr : List.range 2 = [0, 1] := by decide
  have hmem : (GridTile.mk ⟨0, 10, 0, 10⟩ 6 1 none none) ∈
      LatLonGraticuleGridTile.createSubTiles c1tile := by
    simp only [LatLonGraticuleGridTile.createSubTiles, GraticuleGridTile.subdivideSector,
      c1tile, GridTile.sector, GridTile.divisions, GridTile.level, Sector.deltaLatitude,
      Sector.deltaLongitude, hr, List.flatMap_cons, List.map_cons, List.map_nil,
      List.flatMap_nil, List.append_nil, List.cons_append, List.nil_append]
    norm_num
  refine ⟨hmem, ?_, ?_⟩
  · exact (c6_createSubTiles_level_and_divisions c1tile _ hmem).1
  · have h2 := (c6_createSubTiles_level_and_divisions c1tile _ hmem).2
    simpa [c1tile, GridTile.level] using h2

/-- C4: getLevel maps resolutions by the banded table, with no level defined
below 0.0001. -/
theorem c4_getLevel_bands (r : ℚ) :
    (10 ≤ r → LatLonGraticuleGridTile.getLevel r =
      some LatLonGraticuleGridTile.graticuleLatLonLevel0) ∧
    (1 ≤ r ∧ r < 10 → LatLonGraticuleGridTile.getLevel r =
      some LatLonGraticuleGridTile.graticuleLatLonLevel1) ∧
    (1/10 ≤ r ∧ r < 1 → LatLonGraticuleGridTile.getLevel r =
      some LatLonGraticuleGridTile.graticuleLatLonLevel2) ∧
    (1/100 ≤ r ∧ r < 1/10 → LatLonGraticuleGridTile.getLevel r =
      some LatLonGraticuleGridTile.graticuleLatLonLevel3) ∧
    (1/1000 ≤ r ∧ r < 1/100 → LatLonGraticuleGridTile.getLevel r =
      some LatLonGraticuleGridTile.graticuleLatLonLevel4) ∧
    (1/10000 ≤ r ∧ r < 1/1000 → LatLonGraticuleGridTile.getLevel r =
      some LatLonGraticuleGridTile.graticuleLatLonLevel5) ∧
    (r < 1/10000 → LatLonGraticuleGridTile.getLevel r = none) := by
  unfold LatLonGraticuleGridTile.getLevel
  refine ⟨?_, ?_, ?_, ?_, ?_, ?_, ?_⟩ <;> intro h <;>
    split_ifs with h1 h2 h3 h4 h5 h6 <;>
      first
      | rfl
      | (exfalso
         rcases h with ⟨ha, hb⟩
         linarith)
      | (exfalso; linarith)

/-- Witness for C4: the boundary inputs named by the claim, 10 giving level 0,
9.999 giving level 1, 0.00009 giving no level. -/
theorem c4_getLevel_witness :
    (10 : ℚ) ≤ 10 ∧
    LatLonGraticuleGridTile.getLevel 10 =
      some LatLonGraticuleGridTile.graticuleLatLonLevel0 ∧
    LatLonGraticuleGridTile.getLevel (9999/1000) =
      some LatLonGraticuleGridTile.graticuleLatLonLevel1 ∧
    LatLonGraticuleGridTile.getLevel (9/100000) = none := by
  refine ⟨by norm_num, (c4_getLevel_bands 10).1 (by norm_num), ?_, ?_⟩
  · exact (c4_getLevel_bands (9999/1000)).2.1 ⟨by norm_num, by norm_num⟩
  · exact (c4_getLevel_bands (9/100000)).2.2.2.2.2.2 (by norm_num)

/-- C7: getGridSector multiplies -180 by the column terms instead of adding
them, so cell (0, 1) gets the longitude band -1800..-1790 instead of the
-170..-160 band a 10-degree partition of the domain requires. -/
theorem c7_getGridSector_wrong_longitude :
    LatLonGraticuleLayer.getGridSector 0 1 = ⟨-90, -80, -1800, -1790⟩ ∧
    LatLonGraticuleLayer.getGridSector 0 1 ≠ ⟨-90, -80, -170, -160⟩ := by
  constructor
  · simp only [LatLonGraticuleLayer.getGridSector, Sector.mk.injEq]
    norm_num
  · simp only [LatLonGraticuleLayer.getGridSector, ne_eq, Sector.mk.injEq, not_and]
    norm_num

/-- C10: GridElement.isInView with no explicit sector falls back to the
globe's projection limits, yields false when those are absent, and otherwise
reports exactly whether the element's sector overlaps the available sector. -/
theorem c10_gridElement_isInView (ge : GridElement) (dc : DrawContext) :
    (dc.globeProjectionLimits = none → ge.isInView dc none = false) ∧
    (∀ vs, dc.globeProjectionLimits = some vs →
      ge.isInView dc none = ge.sector.overlaps vs) ∧
    (∀ vs, ge.isInView dc (some vs) = ge.sector.overlaps vs) := by
  refine ⟨?_, ?_, ?_⟩
  · intro h
    simp [GridElement.isInView, Option.orElse, h]
  · intro vs h
    simp [GridElement.isInView, Option.orElse, h]
  · intro vs
    simp [GridElement.isInView, Option.orElse]

/-- Witness for C10: with no limits the concrete element is not in view; with
an explicit world sector the overlap answer is returned. -/
theorem c10_gridElement_isInView_witness :
    c10element.isInView dcNoLimits none = false ∧
    c10element.isInView dcNoLimits (some ⟨-90, 90, -180, 180⟩) =
      c10element.sector.overlaps ⟨-90, 90, -180, 180⟩ := by
  constructor
  · exact (c10_gridElement_isInView c10element dcNoLimits).1 rfl
  · exact (c10_gridElement_isInView c10element dcNoLimits).2.2 ⟨-90, 90, -180, 180⟩

/-- Helper: on a selected element (in view, plain Line type) the loop body
takes the isLine branch, since isLine answers true on the Line tag. -/
theorem tileSelectOne_selected (dc : DrawContext) (gl : Option String) (dLat : ℚ)
    (off : EyePos) (ge : GridElement)
    (h : LatLonGraticuleGridTile.lineSelected dc ge = true) :
    LatLonGraticuleGridTile.tileSelectOne dc gl dLat off ge =
      some ([(ge.renderable, gl)], [],
        [LatLonGraticuleGridTile.lineLabelRequest gl dLat off ge]) := by
  have hc : ge.isInView dc none = true ∧ ge.type = GEType.line := by
    simpa [LatLonGraticuleGridTile.lineSelected, Bool.and_eq_true, decide_eq_true_eq] using h
  have hline : ge.isLine = true := by
    simp [GridElement.isLine, hc.2]
  simp [LatLonGraticuleGridTile.tileSelectOne, hc.1, hc.2, hline]

/-- Helper: on an unselected element the loop body contributes nothing. -/
theorem tileSelectOne_not_selected (dc : DrawContext) (gl : Option String) (dLat : ℚ)
    (off : EyePos) (ge : GridElement)
    (h : LatLonGraticuleGridTile.lineSelected dc ge = false) :
    LatLonGraticuleGridTile.tileSelectOne dc gl dLat off ge = some ([], [], []) := by
  have hc : ¬ (ge.isInView dc none = true ∧ ge.type = GEType.line) := by
    intro hx
    rw [LatLonGraticuleGridTile.lineSelected, hx.1, hx.2] at h
    simp at h
  simp [LatLonGraticuleGridTile.tileSelectOne, hc]

/-- Helper: the grid-element loop always succeeds (the branch that would call
the missing isText method is unreachable) and returns the selected elements'
paths, no texts, and their label requests, in element order. -/
theorem tileLoop_eq_some (dc : DrawContext) (gl : Option String) (dLat : ℚ)
    (off : EyePos) (es : List GridElement) :
    LatLonGraticuleGridTile.tileLoop dc gl dLat off es =
      some ((es.filter (LatLonGraticuleGridTile.lineSelected dc)).map
              (fun ge => (ge.renderable, gl)),
            ([] : List Tagged),
            (es.filter (LatLonGraticuleGridTile.lineSelected dc)).map
              (LatLonGraticuleGridTile.lineLabelRequest gl dLat off)) := by
  induction es with
  | nil => rfl
  | cons ge rest ih =>
    cases hsel : LatLonGraticuleGridTile.lineSelected dc ge with
    | false =>
      simp only [LatLonGraticuleGridTile.tileLoop,
        tileSelectOne_not_selected dc gl dLat off ge hsel, ih, Option.bind_some,
        List.filter_cons, hsel, Bool.false_eq_true, if_false]
      simp
    | true =>
      simp only [LatLonGraticuleGridTile.tileLoop,
        tileSelectOne_selected dc gl dLat off ge hsel, ih, Option.bind_some,
        List.filter_cons, hsel, if_true]
      simp

/-- C9: whenever selectRenderables returns a triple, its selected
text-renderables component is empty: the level-0 branch pushes only path
renderables, and the grid-element loop only handles elements of the plain
Line type, for which the isLine test always succeeds, so its text branch is
dead. -/
theorem c9_selected_text_renderables_empty (fuel : ℕ) (dc : DrawContext) (t : GridTile)
    (r : SelectResult) (t' : GridTile)
    (h : LatLonGraticuleGridTile.selectRenderables fuel dc t = some (r, t')) :
    r.textRenderables = [] := by
  cases fuel with
  | zero => simp [LatLonGraticuleGridTile.selectRenderables] at h
  | succ n =>
    rw [LatLonGraticuleGridTile.selectRenderables] at h
    simp only [tileLoop_eq_some] at h
    split at h
    · rw [Option.some.injEq, Prod.mk.injEq] at h
      rw [← h.1]
    · split at h
      · rw [Option.some.injEq, Prod.mk.injEq] at h
        rw [← h.1]
      · split at h
        · exact absurd h (by simp)
        · rw [Option.some.injEq, Prod.mk.injEq] at h
          rw [← h.1]

/-- Witness for C9: the concrete run on c9tile returns a triple, and the
theorem instantiated on it gives the empty text-renderables list. -/
theorem c9_selected_text_renderables_empty_witness :
    (SelectResult.mk [] [] []).textRenderables = [] := by
  have h : LatLonGraticuleGridTile.selectRenderables 1 dcNoLimits c9tile =
      some (⟨[], [], []⟩, GridTile.mk ⟨0, 1, 0, 1⟩ 1 1 (some []) none) := by
    norm_num [LatLonGraticuleGridTile.selectRenderables, c9tile, dcNoLimits,
      GraticuleGridTile.createRenderables, GraticuleGridTile.walkWhileLt,
      GraticuleGridTile.computeLabelOffset, GraticuleGridTile.getSizeInPixels,
      GraticuleGridTile.degreesToRadians, Sector.centroid, Sector.deltaLatitude,
      GridTile.sector, GridTile.divisions, GridTile.level, GridTile.gridElements,
      GridTile.subTiles, LatLonGraticuleGridTile.tileLoop,
      LatLonGraticuleGridTile.jsLtOpt, LatLonGraticuleGridTile.instanceMinCellSizePixels,
      LatLonGraticuleGridTile.minCellSizePixels, LatLonGraticuleGridTile.getLevel]
  exact c9_selected_text_renderables_empty 1 dcNoLimits c9tile _ _ h

/-! ## Decided constructor disequalities of GEType, used by the evaluations -/

theorem line_ne_lineSouth : (GEType.line = GEType.lineSouth) = False := by simp

theorem line_ne_lineNorth : (GEType.line = GEType.lineNorth) = False := by simp

theorem line_ne_lineWest : (GEType.line = GEType.lineWest) = False := by simp

theorem lineWest_ne_line : (GEType.lineWest = GEType.line) = False := by simp

theorem lineSouth_ne_line : (GEType.lineSouth = GEType.line) = False := by simp

theorem lineWest_ne_lineSouth : (GEType.lineWest = GEType.lineSouth) = False := by simp

theorem lineWest_ne_lineNorth : (GEType.lineWest = GEType.lineNorth) = False := by simp

theorem lineSouth_ne_lineNorth : (GEType.lineSouth = GEType.lineNorth) = False := by simp

theorem lonLabel_ne_latLabel : (GEType.longitudeLabel = GEType.latitudeLabel) = False := by simp

theorem latLabel_ne_lonLabel : (GEType.latitudeLabel = GEType.longitudeLabel) = False := by simp

theorem tag0_ne_tag1 :
    (LatLonGraticuleGridTile.graticuleLatLonLevel0 =
      LatLonGraticuleGridTile.graticuleLatLonLevel1) = False := by
  simp [LatLonGraticuleGridTile.graticuleLatLonLevel0,
    LatLonGraticuleGridTile.graticuleLatLonLevel1]

/-- C8 (amended): in the grid-element pass of selectRenderables on a tile of
level other than 0, the created label requests are exactly one per in-view
Line element, and the request's label type is LatitudeLabel when the element's
sub-region has zero latitude extent (a parallel) and LongitudeLabel otherwise
(a meridian, zero longitude extent). -/
theorem c8_amended_interior_label_types (fuel : ℕ) (dc : DrawContext) (t : GridTile)
    (r : SelectResult) (t' : GridTile) (hlev : t.level ≠ 0)
    (h : LatLonGraticuleGridTile.selectRenderables fuel dc t = some (r, t')) :
    r.createdLabels =
      ((t.gridElements.getD (GraticuleGridTile.createRenderables fuel t)).filter
          (LatLonGraticuleGridTile.lineSelected dc)).map
        (LatLonGraticuleGridTile.lineLabelRequest
          (LatLonGraticuleGridTile.getLevel (t.sector.deltaLatitude / t.divisions))
          t.sector.deltaLatitude (GraticuleGridTile.computeLabelOffset dc)) := by
  cases fuel with
  | zero => simp [LatLonGraticuleGridTile.selectRenderables] at h
  | succ n =>
    rw [LatLonGraticuleGridTile.selectRenderables] at h
    split at h
    · rename_i hcond
      exact absurd hcond.1 hlev
    · split at h
      · exact absurd h (by simp)
      · rename_i interior hloop
        rw [tileLoop_eq_some, Option.some.injEq] at hloop
        split at h
        · rw [Option.some.injEq, Prod.mk.injEq] at h
          rw [← h.1, ← hloop]
          simp [if_neg hlev]
        · split at h
          · exact absurd h (by simp)
          · rw [Option.some.injEq, Prod.mk.injEq] at h
            rw [← h.1, ← hloop]
            simp [if_neg hlev]

/-- Helper: the full evaluation of selectRenderables on the C8 scenario: both
interior elements are emitted at the level-1 tag; the meridian (value 25)
queues a LongitudeLabel request and the parallel (value 5) a LatitudeLabel
request; the tile is too small to recurse, so no subtiles appear. -/
theorem c8run_eval :
    LatLonGraticuleGridTile.selectRenderables 3 c8dc c8tile =
      some (⟨[(c8meridian.renderable, some LatLonGraticuleGridTile.graticuleLatLonLevel1),
              (c8parallel.renderable, some LatLonGraticuleGridTile.graticuleLatLonLevel1)],
             [],
             [(25, GEType.longitudeLabel, some LatLonGraticuleGridTile.graticuleLatLonLevel1,
               10, c8dc.eyePosition),
              (5, GEType.latitudeLabel, some LatLonGraticuleGridTile.graticuleLatLonLevel1,
               10, c8dc.eyePosition)]⟩,
        GridTile.mk ⟨0, 10, 20, 30⟩ 2 1 (some [c8meridian, c8parallel]) none) := by
  norm_num [line_ne_lineSouth, line_ne_lineNorth, line_ne_lineWest, lineWest_ne_line,
    lineSouth_ne_line, lineWest_ne_lineSouth, lineWest_ne_lineNorth,
    lineSouth_ne_lineNorth, lonLabel_ne_latLabel, latLabel_ne_lonLabel,
    LatLonGraticuleGridTile.selectRenderables, LatLonGraticuleGridTile.tileLoop,
    LatLonGraticuleGridTile.tileSelectOne, LatLonGraticuleGridTile.lineSelected,
    LatLonGraticuleGridTile.lineLabelRequest, LatLonGraticuleGridTile.boundaryLoop,
    LatLonGraticuleGridTile.boundarySelectOne, LatLonGraticuleGridTile.jsLtOpt,
    LatLonGraticuleGridTile.instanceMinCellSizePixels, LatLonGraticuleGridTile.minCellSizePixels,
    LatLonGraticuleGridTile.getLevel, GraticuleGridTile.createRenderables,
    GraticuleGridTile.walkWhileLt, GraticuleGridTile.createLineRenderable,
    GraticuleGridTile.linear, GraticuleGridTile.computeLabelOffset,
    GraticuleGridTile.getSizeInPixels, GraticuleGridTile.degreesToRadians,
    Sector.centroid, Sector.deltaLatitude, Sector.deltaLongitude, Sector.overlaps,
    GridElement.isInView, GridElement.isLine, GridTile.sector, GridTile.divisions,
    GridTile.level, GridTile.gridElements, GridTile.subTiles, Option.orElse,
    c8tile, c8dc, c8meridian, c8parallel]

/-- C8 (counterexample): on the C8 scenario, the element with zero latitude
extent (the parallel, value 5) gets a LatitudeLabel request, not the
LongitudeLabel the claim assigns to zero-latitude-delta elements, and the
element with zero longitude extent (the meridian, value 25) gets a
LongitudeLabel request, not a LatitudeLabel. -/
theorem c8_counterexample_zero_deltaLat_label :
    (GraticuleGridTile.createRenderables 3 c8tile).map
        (fun ge => (ge.type, ge.value, ge.sector.deltaLatitude)) =
      [(GEType.line, 25, 10), (GEType.line, 5, 0)] ∧
    (LatLonGraticuleGridTile.selectRenderables 3 c8dc c8tile).map
        (fun pr => pr.1.createdLabels.map (fun l => (l.1, l.2.1))) =
      some [(25, GEType.longitudeLabel), (5, GEType.latitudeLabel)] ∧
    GEType.latitudeLabel ≠ GEType.longitudeLabel := by
  refine ⟨?_, ?_, by simp⟩
  · norm_num [line_ne_lineSouth, line_ne_lineNorth, line_ne_lineWest, lineWest_ne_line,
    lineSouth_ne_line, lineWest_ne_lineSouth, lineWest_ne_lineNorth,
    lineSouth_ne_lineNorth, lonLabel_ne_latLabel, latLabel_ne_lonLabel,
    GraticuleGridTile.createRenderables, GraticuleGridTile.walkWhileLt,
      GraticuleGridTile.createLineRenderable, GraticuleGridTile.linear, c8tile,
      GridTile.sector, GridTile.divisions, GridTile.level, Sector.deltaLatitude,
      Sector.deltaLongitude]
  · rw [c8run_eval]
    simp [c8meridian, c8parallel]

/-- Witness for the amended C8: on the C8 scenario (level 1 tile), the label
list returned by selectRenderables is exactly the filter-and-map of the
amended rule over the tile's elements. -/
theorem c8_amended_witness :
    c8tile.level ≠ 0 ∧
    ([(25, GEType.longitudeLabel, some LatLonGraticuleGridTile.graticuleLatLonLevel1, 10,
        c8dc.eyePosition),
      (5, GEType.latitudeLabel, some LatLonGraticuleGridTile.graticuleLatLonLevel1, 10,
        c8dc.eyePosition)] : List LabelRequest) =
      ((c8tile.gridElements.getD (GraticuleGridTile.createRenderables 3 c8tile)).filter
          (LatLonGraticuleGridTile.lineSelected c8dc)).map
        (LatLonGraticuleGridTile.lineLabelRequest
          (LatLonGraticuleGridTile.getLevel (c8tile.sector.deltaLatitude / c8tile.divisions))
          c8tile.sector.deltaLatitude (GraticuleGridTile.computeLabelOffset c8dc)) := by
  have hlev : c8tile.level ≠ 0 := by simp [c8tile, GridTile.level]
  exact ⟨hlev, c8_amended_interior_label_types 3 c8dc c8tile _ _ hlev c8run_eval⟩

/-- C3: addLabel does not deduplicate longitude labels: its longitude branch
tests the latitude-value list, so two identical LongitudeLabel requests for
the value 5 both emit a text renderable; and a LatitudeLabel request for 5
followed by a LongitudeLabel request for 5 emits only the latitude label, the
first longitude request being dropped. -/
theorem c3_longitude_label_dedup_broken :
    (GraticuleLayer.processLabelRequests GraticuleLayer.cleared
        [c3lonRequest, c3lonRequest]).textRenderables.map
      (fun e => (e.1.value, e.1.labelType)) =
      [(5, GEType.longitudeLabel), (5, GEType.longitudeLabel)] ∧
    (GraticuleLayer.processLabelRequests GraticuleLayer.cleared
        [c3latRequest, c3lonRequest]).textRenderables.map
      (fun e => (e.1.value, e.1.labelType)) = [(5, GEType.latitudeLabel)] := by
  constructor <;>
    simp [GraticuleLayer.processLabelRequests, GraticuleLayer.addLabel,
      GraticuleLayer.cleared, c3lonRequest, c3latRequest, c3offset]

/-- C5: on a level-0 tile whose child-cell size (10 pixels) is below
minCellSizePixels, selectRenderables does not return after the boundary pass:
the comparison against this.minCellSizePixels (undefined) is false, so the
grid-element loop still runs, emitting the two interior Line elements at the
level-1 tag beside the two boundary lines (4 paths, 4 label requests); no
subtiles are created. -/
theorem c5_interior_lines_emitted_below_min_cell :
    GraticuleGridTile.getSizeInPixels c5tile c5dc / c5tile.divisions <
      LatLonGraticuleGridTile.minCellSizePixels ∧
    (LatLonGraticuleGridTile.selectRenderables 3 c5dc c5tile).map
        (fun pr =>
          (pr.1.pathRenderables.length,
           (pr.1.pathRenderables.filter
             (fun p => decide (p.2 = some LatLonGraticuleGridTile.graticuleLatLonLevel1))).length,
           pr.1.createdLabels.length,
           pr.2.subTiles)) =
      some (4, 2, 4, none) := by
  constructor
  · norm_num [GraticuleGridTile.getSizeInPixels, GraticuleGridTile.degreesToRadians,
      Sector.centroid, Sector.deltaLatitude, GridTile.sector, GridTile.divisions,
      LatLonGraticuleGridTile.minCellSizePixels, c5tile, c5dc]
  · show (LatLonGraticuleGridTile.selectRenderables (2 + 1) c5dc c5tile).map
        (fun pr =>
          (pr.1.pathRenderables.length,
           (pr.1.pathRenderables.filter
             (fun p => decide (p.2 = some LatLonGraticuleGridTile.graticuleLatLonLevel1))).length,
           pr.1.createdLabels.length,
           pr.2.subTiles)) = some (4, 2, 4, none)
    rw [LatLonGraticuleGridTile.selectRenderables]
    norm_num [line_ne_lineSouth, line_ne_lineNorth, line_ne_lineWest, lineWest_ne_line,
      lineSouth_ne_line, lineWest_ne_lineSouth, lineWest_ne_lineNorth,
      lineSouth_ne_lineNorth, lonLabel_ne_latLabel, latLabel_ne_lonLabel,
      LatLonGraticuleGridTile.tileLoop,
      LatLonGraticuleGridTile.tileSelectOne, LatLonGraticuleGridTile.lineSelected,
      LatLonGraticuleGridTile.lineLabelRequest, LatLonGraticuleGridTile.boundaryLoop,
      LatLonGraticuleGridTile.boundarySelectOne, LatLonGraticuleGridTile.jsLtOpt,
      LatLonGraticuleGridTile.instanceMinCellSizePixels, LatLonGraticuleGridTile.minCellSizePixels,
      LatLonGraticuleGridTile.getLevel, GraticuleGridTile.createRenderables,
      GraticuleGridTile.walkWhileLt, GraticuleGridTile.createLineRenderable,
      GraticuleGridTile.linear, GraticuleGridTile.computeLabelOffset,
      GraticuleGridTile.getSizeInPixels, GraticuleGridTile.degreesToRadians,
      Sector.centroid, Sector.deltaLatitude, Sector.deltaLongitude, Sector.overlaps,
      GridElement.isInView, GridElement.isLine, GridTile.sector, GridTile.divisions,
      GridTile.level, GridTile.gridElements, GridTile.subTiles, Option.orElse,
      Option.some.injEq, tag0_ne_tag1, decide_True, decide_False, c5tile, c5dc]

/-- Helper: the field values of c2dc, used as rewrite rules so that the
draw-context constant itself stays folded during the big evaluations. -/
theorem c2dcFields :
    c2dc.globeProjectionLimits = some ⟨5, 5, 3, 3⟩ ∧
    c2dc.eyePosition = ⟨1, 2, 3⟩ ∧
    (∀ s, c2dc.frustumIntersectsSector s = decide (s = ⟨0, 10, 2, 4⟩)) ∧
    (∀ a b, c2dc.eyeDistanceToSurfacePoint a b = b) ∧
    (∀ d, c2dc.pixelSizeAtDistance d =
      if d = 3 then GraticuleGridTile.degreesToRadians / 30
      else GraticuleGridTile.degreesToRadians / 16) :=
  ⟨rfl, rfl, fun _ => rfl, fun _ _ => rfl, fun _ => rfl⟩

set_option maxHeartbeats 1600000 in
/-- Helper: the full run of selectRenderables on the c2child tile under c2dc:
of its five parallels only the one at latitude 5 is inside the projection
limits, so one path and one latitude-label request come back; the tile is too
small to recurse. -/
theorem c2child_run :
    LatLonGraticuleGridTile.selectRenderables 9 c2dc
        (GridTile.mk ⟨0, 10, 2, 4⟩ 6 1 none none) =
      some (⟨[((c2parallelAt 5).renderable,
               some LatLonGraticuleGridTile.graticuleLatLonLevel1)],
             [],
             [(5, GEType.latitudeLabel, some LatLonGraticuleGridTile.graticuleLatLonLevel1,
               10, ⟨1, 2, 3⟩)]⟩,
        GridTile.mk ⟨0, 10, 2, 4⟩ 6 1 (some c2childElements) none) := by
  show LatLonGraticuleGridTile.selectRenderables (8 + 1) c2dc
      (GridTile.mk ⟨0, 10, 2, 4⟩ 6 1 none none) = _
  rw [LatLonGraticuleGridTile.selectRenderables]
  norm_num [line_ne_lineSouth, line_ne_lineNorth, line_ne_lineWest, lineWest_ne_line,
    lineSouth_ne_line, lineWest_ne_lineSouth, lineWest_ne_lineNorth,
    lineSouth_ne_lineNorth, lonLabel_ne_latLabel, latLabel_ne_lonLabel,
    LatLonGraticuleGridTile.tileLoop,
    LatLonGraticuleGridTile.tileSelectOne, LatLonGraticuleGridTile.lineSelected,
    LatLonGraticuleGridTile.lineLabelRequest, LatLonGraticuleGridTile.boundaryLoop,
    LatLonGraticuleGridTile.boundarySelectOne, LatLonGraticuleGridTile.jsLtOpt,
    LatLonGraticuleGridTile.instanceMinCellSizePixels, LatLonGraticuleGridTile.minCellSizePixels,
    LatLonGraticuleGridTile.getLevel, GraticuleGridTile.createRenderables,
    GraticuleGridTile.walkWhileLt, GraticuleGridTile.createLineRenderable,
    GraticuleGridTile.linear, GraticuleGridTile.computeLabelOffset,
    GraticuleGridTile.getSizeInPixels, GraticuleGridTile.degreesToRadians,
    Sector.centroid, Sector.deltaLatitude, Sector.deltaLongitude, Sector.overlaps,
    GridElement.isInView, GridElement.isLine, GridTile.sector, GridTile.divisions,
    GridTile.level, GridTile.gridElements, GridTile.subTiles, Option.orElse,
    Option.some.injEq, tag0_ne_tag1, decide_True, decide_False, c2dcFields,
    c2parallelAt, c2childElements]

set_option maxHeartbeats 3200000 in
set_option maxRecDepth 8000 in
/-- C2: the triples returned by the recursive selectRenderables calls are
discarded.  Under c2dc the parent's child-cell size reaches the 2x
minCellSizePixels recursion threshold, c2child is one of its subtiles and is
in view, and the recursive call on c2child returns one path renderable (the
parallel of latitude 5, the only element the projection limits touch); yet
the triple the parent returns is empty, not the union of its own emissions
(none) and its children's (that parallel). -/
theorem c2_child_results_discarded :
    LatLonGraticuleGridTile.minCellSizePixels * 2 ≤
      GraticuleGridTile.getSizeInPixels c2parent c2dc / c2parent.divisions ∧
    c2child ∈ LatLonGraticuleGridTile.createSubTiles c2parent ∧
    LatLonGraticuleGridTile.isInView c2child c2dc = true ∧
    (LatLonGraticuleGridTile.selectRenderables 9 c2dc c2child).map
        (fun pr => pr.1.pathRenderables.map (fun p => p.1.positions)) =
      some [[(5, 2, 0), (5, 4, 0)]] ∧
    (LatLonGraticuleGridTile.selectRenderables 10 c2dc c2parent).map
        (fun pr => pr.1.pathRenderables) = some [] := by
  refine ⟨?_, ?_, ?_, ?_, ?_⟩
  · norm_num [GraticuleGridTile.getSizeInPixels, GraticuleGridTile.degreesToRadians,
      Sector.centroid, Sector.deltaLatitude, GridTile.sector, GridTile.divisions,
      LatLonGraticuleGridTile.minCellSizePixels, c2parent, c2dc]
  · norm_num [List.mem_cons, LatLonGraticuleGridTile.createSubTiles, GraticuleGridTile.subdivideSector,
      c2parent, c2child, GridTile.sector, GridTile.divisions, GridTile.level,
      Sector.deltaLatitude, Sector.deltaLongitude, List.range_succ]
  · norm_num [LatLonGraticuleGridTile.isInView, GraticuleGridTile.isInView,
      GraticuleGridTile.getSizeInPixels, GraticuleGridTile.degreesToRadians,
      Sector.centroid, Sector.deltaLatitude, GridTile.sector, GridTile.divisions,
      GridTile.level, LatLonGraticuleGridTile.minCellSizePixels, c2child, c2dc]
  · show (LatLonGraticuleGridTile.selectRenderables 9 c2dc
        (GridTile.mk ⟨0, 10, 2, 4⟩ 6 1 none none)).map
        (fun pr => pr.1.pathRenderables.map (fun p => p.1.positions)) = _
    rw [c2child_run]
    simp [c2parallelAt, GraticuleGridTile.createLineRenderable]
  · show (LatLonGraticuleGridTile.selectRenderables (9 + 1) c2dc c2parent).map
        (fun pr => pr.1.pathRenderables) = some []
    rw [LatLonGraticuleGridTile.selectRenderables]
    norm_num [line_ne_lineSouth, line_ne_lineNorth, line_ne_lineWest, lineWest_ne_line,
    lineSouth_ne_line, lineWest_ne_lineSouth, lineWest_ne_lineNorth,
    lineSouth_ne_lineNorth, lonLabel_ne_latLabel, latLabel_ne_lonLabel,
    LatLonGraticuleGridTile.tileLoop,
      LatLonGraticuleGridTile.tileSelectOne, LatLonGraticuleGridTile.lineSelected,
      LatLonGraticuleGridTile.lineLabelRequest, LatLonGraticuleGridTile.boundaryLoop,
      LatLonGraticuleGridTile.boundarySelectOne, LatLonGraticuleGridTile.jsLtOpt,
      LatLonGraticuleGridTile.instanceMinCellSizePixels, LatLonGraticuleGridTile.minCellSizePixels,
      LatLonGraticuleGridTile.getLevel, LatLonGraticuleGridTile.isInView,
      LatLonGraticuleGridTile.createSubTiles, GraticuleGridTile.subdivideSector,
      GraticuleGridTile.isInView, GraticuleGridTile.clearRenderables,
      GraticuleGridTile.createRenderables,
      GraticuleGridTile.walkWhileLt, GraticuleGridTile.createLineRenderable,
      GraticuleGridTile.linear, GraticuleGridTile.computeLabelOffset,
      GraticuleGridTile.getSizeInPixels, GraticuleGridTile.degreesToRadians,
      Sector.centroid, Sector.deltaLatitude, Sector.deltaLongitude, Sector.overlaps,
      GridElement.isInView, GridElement.isLine, GridTile.sector, GridTile.divisions,
      GridTile.level, GridTile.gridElements, GridTile.subTiles, Option.orElse,
      Option.some.injEq, tag0_ne_tag1, decide_True, decide_False, c2dcFields,
      c2child_run, List.range_succ, c2parent]

end Graticule
